import Mathlib

/-!
Shallow embedding of the marin3r `pkg/cache` package (file `src/unnamed/part_000`),
a per-node cache of envoy xDS resources that mirrors the go-control-plane
`cache.Snapshot` layout: a map from node id to a snapshot of six versioned
resource collections.

Go semantics modelled explicitly:
* `Cache` is a Go map from string to `*Snapshot`; looking up a missing key
  yields the zero value `nil`, and dereferencing that nil pointer panics.
  Operations that dereference the per-node pointer therefore return
  `Failure.nilDeref` when the node is absent.
* `strconv.Atoi` parses an optionally signed decimal integer constrained to
  the 64-bit range of Go's `int`; `atoi` returns `none` exactly when Go's
  `Atoi` returns a non-nil error.
* Go's `version++` on `int` wraps in two's complement; `int64Wrap` applies
  the wrap after the increment.
* `strconv.Itoa` is `itoa`, minus sign plus decimal digits.
* Go map lookup of a missing key in `Items` yields the zero value of the
  interface type `types.Resource`, i.e. nil; `Items` is modelled as
  `String → Option α` with `none` for that nil.
Resource values are opaque to the package, hence the type parameter `α`.
-/

namespace Marin3r

/-- Outcome of a Go-level failure inside a cache operation.
`nilDeref` models the runtime panic from dereferencing the nil `*Snapshot`
returned by a map lookup of an absent node; `parseError` models a non-nil
error returned by `strconv.Atoi`; `unknownNode` is the error kind named by
the spec for operations on absent nodes — it is listed here so that claims
mentioning it can be stated, and the embedded code never produces it. -/
inductive Failure where
| nilDeref
| parseError
| unknownNode
deriving DecidableEq

/-- Largest value of Go's 64-bit `int`, 2^63 - 1. -/
def goIntMax : Int := 9223372036854775807

/-- Smallest value of Go's 64-bit `int`, -2^63. -/
def goIntMin : Int := -9223372036854775808

/-- Decimal digit test on a character (Go's `'0' <= c && c <= '9'`). -/
def isDigitChar (c : Char) : Bool := 48 ≤ c.toNat && c.toNat ≤ 57

/-- Accumulate a decimal value over characters, failing on a non-digit. -/
def parseDigitsAux : List Char → Nat → Option Nat
| [], acc => some acc
| c :: cs, acc =>
    if isDigitChar c then parseDigitsAux cs (acc * 10 + (c.toNat - 48)) else none

/-- Parse a non-empty all-digit string to its value. -/
def parseDigits : List Char → Option Nat
| [] => none
| l => parseDigitsAux l 0

/-- Model of Go's `strconv.Atoi`: an optional `+`/`-` sign followed by at
least one decimal digit, rejected (`none`) when the value falls outside the
64-bit `int` range (`ErrRange`) or the syntax is invalid (`ErrSyntax`). -/
def atoi (s : String) : Option Int :=
  match s.data with
  | [] => none
  | c :: rest =>
      if c = '+' then
        (parseDigits rest).bind (fun n => if (n : Int) ≤ goIntMax then some (n : Int) else none)
      else if c = '-' then
        (parseDigits rest).bind (fun n => if (n : Int) ≤ 9223372036854775808 then some (-(n : Int)) else none)
      else
        (parseDigits (c :: rest)).bind (fun n => if (n : Int) ≤ goIntMax then some (n : Int) else none)

/-- Model of Go's `strconv.Itoa`. -/
def itoa (i : Int) : String := toString i

/-- Two's-complement wrap of an integer into the 64-bit `int` range, the
semantics Go gives the increment `version++`: `(x + 2^63) % 2^64 - 2^63`. -/
def int64Wrap (x : Int) : Int :=
  (x + 9223372036854775808) % 18446744073709551616 - 9223372036854775808

/-- One versioned resource collection (go-control-plane `cache.Resources`):
a version string plus a map from resource name to resource value. A Go map
lookup of an absent name yields nil, modelled as `none`. -/
structure Resources (α : Type) where
  Version : String
  Items : String → Option α

/-- Go-control-plane `cache.Snapshot`: a fixed array of six resource
collections indexed by response type. -/
structure Snapshot (α : Type) where
  Resources : Fin 6 → Marin3r.Resources α

/-- Index of the Endpoint collection (`types.ResponseType` iota order). -/
def Endpoint : Fin 6 := 0

/-- Index of the Cluster collection. -/
def Cluster : Fin 6 := 1

/-- Index of the Route collection. -/
def Route : Fin 6 := 2

/-- Index of the Listener collection. -/
def Listener : Fin 6 := 3

/-- Index of the Secret collection. -/
def Secret : Fin 6 := 4

/-- Index of the Runtime collection. -/
def Runtime : Fin 6 := 5

/-- Go-control-plane `cache.NewResources(version, items)`: a collection with
the given version whose items are the given resources indexed by name (the
repository only ever passes an empty list; on duplicate names the later
entry wins, as in a Go map-building loop). -/
def NewResources (version : String) (items : List (String × α)) : Resources α :=
  { Version := version
    Items := fun n => (items.reverse.find? (fun p => p.1 == n)).map (fun p => p.2) }

/-- The `cache` package constant `startingVersion = 1`. -/
def startingVersion : Int := 1

/-- The repository's `Cache` type: a Go map from node id to `*Snapshot`.
A missing key yields the zero value nil, modelled as `none`. -/
abbrev Cache (α : Type) := String → Option (Snapshot α)

/-- The repository's `NewCache()`: an empty map. -/
def NewCache (α : Type) : Cache α := fun _ => none

/-- Store a snapshot under a node id (a Go map assignment). -/
def Cache.update (c : Cache α) (nodeID : String) (s : Snapshot α) : Cache α :=
  fun k => if k = nodeID then some s else c k

/-- The snapshot built by `NewNodeCache`: six collections, each
`NewResources(strconv.Itoa(startingVersion), []Resource{})`. -/
def freshSnapshot (α : Type) : Snapshot α :=
  { Resources := fun _ => NewResources (itoa startingVersion) [] }

/-- The repository's `NewNodeCache(nodeID)`: build a fresh snapshot whose
six collections all carry version `Itoa(startingVersion)` and empty items,
and store it under `nodeID` (overwriting any previous snapshot). -/
def NewNodeCache (c : Cache α) (nodeID : String) : Cache α :=
  c.update nodeID (freshSnapshot α)

/-- The repository's `DeleteNodeCache(nodeID)`: `delete(cache, nodeID)`. -/
def DeleteNodeCache (c : Cache α) (nodeID : String) : Cache α :=
  fun k => if k = nodeID then none else c k

/-- The repository's `GetNodeCache(nodeID)`: plain map lookup, returning the
nil pointer (`none`) when the node is absent — no error, no panic. -/
def GetNodeCache (c : Cache α) (nodeID : String) : Option (Snapshot α) :=
  c nodeID

/-- The repository's `SetResource(nodeID, name, rtype, value)`:
`cache[nodeID].Resources[rtype].Items[name] = value`. Dereferencing the nil
pointer of an absent node panics; the pair carries the resulting cache
(unchanged on failure, since the panic happens before any write). -/
def SetResource (c : Cache α) (nodeID name : String) (rtype : Fin 6) (value : α) :
    Except Failure Unit × Cache α :=
  match c nodeID with
  | none => (.error .nilDeref, c)
  | some snap =>
      let res := snap.Resources rtype
      let res' : Resources α :=
        { res with Items := fun n => if n = name then some value else res.Items n }
      let snap' : Snapshot α :=
        { Resources := fun i => if i = rtype then res' else snap.Resources i }
      (.ok (), c.update nodeID snap')

/-- The repository's `GetResource(nodeID, name, rtype)`: returns
`cache[nodeID].Resources[rtype].Items[name]`, the zero value nil (`none`)
when the name is absent; panics when the node is absent. -/
def GetResource (c : Cache α) (nodeID name : String) (rtype : Fin 6) :
    Except Failure (Option α) :=
  match c nodeID with
  | none => .error .nilDeref
  | some snap => .ok ((snap.Resources rtype).Items name)

/-- The repository's `DeleteResource(nodeID, name, rtype)`:
`delete(cache[nodeID].Resources[rtype].Items, name)`. -/
def DeleteResource (c : Cache α) (nodeID name : String) (rtype : Fin 6) :
    Except Failure Unit × Cache α :=
  match c nodeID with
  | none => (.error .nilDeref, c)
  | some snap =>
      let res := snap.Resources rtype
      let res' : Resources α :=
        { res with Items := fun n => if n = name then none else res.Items n }
      let snap' : Snapshot α :=
        { Resources := fun i => if i = rtype then res' else snap.Resources i }
      (.ok (), c.update nodeID snap')

/-- The repository's `ClearResources(nodeID, rtype)`: replaces the addressed
collection's item map by a fresh empty map, leaving its version and the
other five collections untouched. -/
def ClearResources (c : Cache α) (nodeID : String) (rtype : Fin 6) :
    Except Failure Unit × Cache α :=
  match c nodeID with
  | none => (.error .nilDeref, c)
  | some snap =>
      let res := snap.Resources rtype
      let res' : Resources α := { res with Items := fun _ => none }
      let snap' : Snapshot α :=
        { Resources := fun i => if i = rtype then res' else snap.Resources i }
      (.ok (), c.update nodeID snap')

/-- The repository's `GetCurrentVersion(nodeID)`: `strconv.Atoi` of
`cache[nodeID].Resources[0].Version` — only the collection at index 0
(Endpoint) is consulted; a parse failure is returned as `(0, err)`. -/
def GetCurrentVersion (c : Cache α) (nodeID : String) : Except Failure Int :=
  match c nodeID with
  | none => .error .nilDeref
  | some snap =>
      match atoi ((snap.Resources 0).Version) with
      | none => .error .parseError
      | some v => .ok v

/-- The repository's `BumpCacheVersion(nodeID)`: parse
`cache[nodeID].Resources[0].Version`, return the error on parse failure
(before any write), otherwise increment with Go's wrapping `++`, stringify,
and write the new version string into all six collections, returning the
new integer version. -/
def BumpCacheVersion (c : Cache α) (nodeID : String) :
    Except Failure Int × Cache α :=
  match c nodeID with
  | none => (.error .nilDeref, c)
  | some snap =>
      match atoi ((snap.Resources 0).Version) with
      | none => (.error .parseError, c)
      | some v =>
          let v' := int64Wrap (v + 1)
          let sversion := itoa v'
          let snap' : Snapshot α :=
            { Resources := fun i => { snap.Resources i with Version := sversion } }
          (.ok v', c.update nodeID snap')

/-- Error reported by the external distribution layer when it does not
accept a snapshot (the spec's `PublishFailure`). -/
inductive PublishError where
| rejected
deriving DecidableEq

/-- Abstract model of the external go-control-plane `cache.SnapshotCache`
(the distribution layer, an external collaborator specified only at its
boundary): a store of published snapshots per node plus an acceptance
predicate saying whether a given `SetSnapshot` call succeeds. -/
structure SnapshotCache (α : Type) where
  store : String → Option (Snapshot α)
  accept : String → Snapshot α → Bool

/-- The distribution layer's `SetSnapshot(node, snapshot) error`: on
acceptance it replaces what is visible for `node` and reports no error;
on rejection it reports an error. -/
def SnapshotCache.setSnapshot (sc : SnapshotCache α) (node : String) (snap : Snapshot α) :
    SnapshotCache α × Option PublishError :=
  if sc.accept node snap then
    ({ sc with store := fun k => if k = node then some snap else sc.store k }, none)
  else
    (sc, some .rejected)

/-- The repository's `SetSnapshot(nodeID, snapshotCache)`: calls
`snapshotCache.SetSnapshot(nodeID, *cache[nodeID])` and IGNORES its error
return — the result type carries no distribution-layer failure, only the
panic on an absent node's nil pointer. -/
def SetSnapshot (c : Cache α) (nodeID : String) (sc : SnapshotCache α) :
    Except Failure Unit × SnapshotCache α :=
  match c nodeID with
  | none => (.error .nilDeref, sc)
  | some snap => (.ok (), (sc.setSnapshot nodeID snap).1)

/-! Helper lemmas. -/

/-- Looking up the node just stored yields the stored snapshot. -/
theorem Cache.update_self (c : Cache α) (n : String) (s : Snapshot α) :
    c.update n s n = some s := by
  simp [Cache.update]

/-- Looking up a different node is unaffected by a store. -/
theorem Cache.update_other (c : Cache α) (n m : String) (s : Snapshot α) (h : m ≠ n) :
    c.update n s m = c m := by
  simp [Cache.update, h]

/-- Any value `atoi` accepts lies in Go's 64-bit `int` range. -/
theorem atoi_range (s : String) (v : Int) (h : atoi s = some v) :
    goIntMin ≤ v ∧ v ≤ goIntMax := by
  unfold atoi at h
  cases hl : s.data with
  | nil => rw [hl] at h; simp at h
  | cons c cs =>
      rw [hl] at h
      simp only [] at h
      split_ifs at h with h1 h2
      · rcases Option.bind_eq_some.mp h with ⟨n, _, h3⟩
        split_ifs at h3 with h4
        cases h3
        have h0 : (0 : Int) ≤ (n : Int) := Int.natCast_nonneg n
        unfold goIntMax at h4
        unfold goIntMin goIntMax
        omega
      · rcases Option.bind_eq_some.mp h with ⟨n, _, h3⟩
        split_ifs at h3 with h4
        cases h3
        have h0 : (0 : Int) ≤ (n : Int) := Int.natCast_nonneg n
        unfold goIntMin goIntMax
        omega
      · rcases Option.bind_eq_some.mp h with ⟨n, _, h3⟩
        split_ifs at h3 with h4
        cases h3
        have h0 : (0 : Int) ≤ (n : Int) := Int.natCast_nonneg n
        unfold goIntMax at h4
        unfold goIntMin goIntMax
        omega

/-- The two's-complement wrap is the identity on the 64-bit `int` range. -/
theorem int64Wrap_eq_self (x : Int) (h1 : goIntMin ≤ x) (h2 : x ≤ goIntMax) :
    int64Wrap x = x := by
  unfold int64Wrap
  unfold goIntMin at h1
  unfold goIntMax at h2
  omega

/-! Concrete caches used to evaluate the operations on explicit inputs. -/

/-- A cache holding one freshly created node `"w1"`. -/
def w1Cache : Cache Nat := NewNodeCache (NewCache Nat) "w1"

/-- A snapshot whose six collections all carry the largest stringified
64-bit `int` as their version. -/
def maxSnapshot : Snapshot Nat :=
  { Resources := fun _ => { Version := "9223372036854775807", Items := fun _ => none } }

/-- A cache holding `maxSnapshot` under `"n1"`. -/
def maxCache : Cache Nat := (NewCache Nat).update "n1" maxSnapshot

/-- A snapshot whose stored version is not a number. -/
def corruptSnapshot : Snapshot Nat :=
  { Resources := fun _ => { Version := "not-a-number", Items := fun _ => none } }

/-- A cache holding `corruptSnapshot` under `"n5"`. -/
def corruptCache : Cache Nat := (NewCache Nat).update "n5" corruptSnapshot

/-- A snapshot whose stored version is `"0"`, a decimal integer that is not
positive. -/
def zeroSnapshot : Snapshot Nat :=
  { Resources := fun _ => { Version := "0", Items := fun _ => none } }

/-- A cache holding `zeroSnapshot` under `"n6"`. -/
def zeroCache : Cache Nat := (NewCache Nat).update "n6" zeroSnapshot

/-- A snapshot whose six collections disagree on the version: index 0 holds
the largest stringified 64-bit `int`, the other five hold `"5"`. -/
def skewSnapshot : Snapshot Nat :=
  { Resources := fun i =>
      if i = 0 then { Version := "9223372036854775807", Items := fun _ => none }
      else { Version := "5", Items := fun _ => none } }

/-- A cache holding `skewSnapshot` under `"nA"`. -/
def skewCache : Cache Nat := (NewCache Nat).update "nA" skewSnapshot

/-- A snapshot with version `"3"` and a single Item `"x" ↦ 5` in every
collection. -/
def richSnapshot : Snapshot Nat :=
  { Resources := fun _ =>
      { Version := "3", Items := fun nm => if nm = "x" then some 5 else none } }

/-- A cache holding `richSnapshot` under `"n8"`. -/
def richCache : Cache Nat := (NewCache Nat).update "n8" richSnapshot

/-- A cache holding two freshly created nodes `"a"` and `"b"`. -/
def abCache : Cache Nat := NewNodeCache (NewNodeCache (NewCache Nat) "a") "b"

/-- A distribution layer that accepts every snapshot. -/
def acceptLayer : SnapshotCache Nat :=
  { store := fun _ => none, accept := fun _ _ => true }

/-- A distribution layer that rejects every snapshot. -/
def rejectLayer : SnapshotCache Nat :=
  { store := fun _ => none, accept := fun _ _ => false }

/-! Claim theorems. -/

/-- C1, counterexample: a node whose stored version is the largest 64-bit
`int` (a positive integer, so inside the data-model invariant) makes
`BumpCacheVersion` wrap: the previous integer version is 2^63 - 1, yet the
returned new version is -2^63, not the previous version plus 1. -/
theorem C1_counterexample :
    atoi ((maxSnapshot.Resources 0).Version) = some 9223372036854775807 ∧
    (BumpCacheVersion maxCache "n1").1 = Except.ok (-9223372036854775808 : Int) ∧
    (-9223372036854775808 : Int) ≠ 9223372036854775807 + 1 :=
  ⟨rfl, rfl, by decide⟩

/-- C1 (amended): for every node present in the cache whose stored version
parses to the integer `v` (which `GetCurrentVersion` reports as the previous
version), `BumpCacheVersion` returns the two's-complement-wrapped `v + 1` —
equal to `v + 1` whenever `v < 2^63 - 1` — and rewrites the snapshot so that
all six collections carry the identical new stringified version while every
collection keeps exactly its previous items. -/
theorem C1_bump_version (α : Type) (c : Cache α) (n : String) (snap : Snapshot α)
    (v : Int) (hn : c n = some snap) (hv : atoi ((snap.Resources 0).Version) = some v) :
    GetCurrentVersion c n = Except.ok v ∧
    BumpCacheVersion c n =
      (Except.ok (int64Wrap (v + 1)),
        c.update n
          { Resources := fun i =>
              { snap.Resources i with Version := itoa (int64Wrap (v + 1)) } }) ∧
    (v < goIntMax → int64Wrap (v + 1) = v + 1) := by
  refine ⟨?_, ?_, ?_⟩
  · simp [GetCurrentVersion, hn, hv]
  · simp [BumpCacheVersion, hn, hv]
  · intro hlt
    have hr := atoi_range _ _ hv
    apply int64Wrap_eq_self
    · unfold goIntMin at hr ⊢; omega
    · unfold goIntMax at hlt hr ⊢; omega

/-- C1, witness: evaluating the amended claim on a freshly created node with
version `"1"`. -/
theorem C1_witness :
    GetCurrentVersion w1Cache "w1" = Except.ok 1 ∧
    BumpCacheVersion w1Cache "w1" =
      (Except.ok (int64Wrap (1 + 1)),
        w1Cache.update "w1"
          { Resources := fun i =>
              { (freshSnapshot Nat).Resources i with Version := itoa (int64Wrap (1 + 1)) } }) ∧
    ((1 : Int) < goIntMax → int64Wrap (1 + 1) = 1 + 1) :=
  C1_bump_version Nat w1Cache "w1" (freshSnapshot Nat) 1 rfl rfl

/-- C2, counterexample: on the empty cache, `SetResource` on the absent node
`"n1"` dereferences the nil `*Snapshot` and panics (`nilDeref`); it does not
return the spec's `UnknownNode` error. -/
theorem C2_counterexample :
    (SetResource (NewCache Nat) "n1" "r" Endpoint 0).1 = Except.error Failure.nilDeref ∧
    Failure.nilDeref ≠ Failure.unknownNode :=
  ⟨rfl, by decide⟩

/-- C2 (amended): for every node id with no snapshot in the cache —
in particular after `DeleteNodeCache` — `SetResource`, `GetResource`,
`DeleteResource`, `ClearResources`, `GetCurrentVersion`, `BumpCacheVersion`
and `SetSnapshot` all panic with a nil-pointer dereference (no `UnknownNode`
error is ever produced), leaving the cache and the distribution layer
unchanged, while `GetNodeCache` returns the nil pointer without failing. -/
theorem C2_absent_node (α : Type) (c : Cache α) (n name : String) (rtype : Fin 6)
    (value : α) (sc : SnapshotCache α) (hn : c n = none) :
    SetResource c n name rtype value = (Except.error Failure.nilDeref, c) ∧
    GetResource c n name rtype = Except.error Failure.nilDeref ∧
    DeleteResource c n name rtype = (Except.error Failure.nilDeref, c) ∧
    ClearResources c n rtype = (Except.error Failure.nilDeref, c) ∧
    GetNodeCache c n = none ∧
    GetCurrentVersion c n = Except.error Failure.nilDeref ∧
    BumpCacheVersion c n = (Except.error Failure.nilDeref, c) ∧
    SetSnapshot c n sc = (Except.error Failure.nilDeref, sc) ∧
    (DeleteNodeCache c n) n = none := by
  refine ⟨?_, ?_, ?_, ?_, ?_, ?_, ?_, ?_, ?_⟩ <;>
    simp [SetResource, GetResource, DeleteResource, ClearResources, GetNodeCache,
      GetCurrentVersion, BumpCacheVersion, SetSnapshot, DeleteNodeCache, hn]

/-- C2, witness: evaluating the amended claim on the node `"w1"` after it
has been deleted from a cache that held it. -/
theorem C2_witness :
    SetResource (DeleteNodeCache w1Cache "w1") "w1" "r" Cluster 7 =
      (Except.error Failure.nilDeref, DeleteNodeCache w1Cache "w1") ∧
    GetResource (DeleteNodeCache w1Cache "w1") "w1" "r" Cluster =
      Except.error Failure.nilDeref ∧
    DeleteResource (DeleteNodeCache w1Cache "w1") "w1" "r" Cluster =
      (Except.error Failure.nilDeref, DeleteNodeCache w1Cache "w1") ∧
    ClearResources (DeleteNodeCache w1Cache "w1") "w1" Cluster =
      (Except.error Failure.nilDeref, DeleteNodeCache w1Cache "w1") ∧
    GetNodeCache (DeleteNodeCache w1Cache "w1") "w1" = none ∧
    GetCurrentVersion (DeleteNodeCache w1Cache "w1") "w1" = Except.error Failure.nilDeref ∧
    BumpCacheVersion (DeleteNodeCache w1Cache "w1") "w1" =
      (Except.error Failure.nilDeref, DeleteNodeCache w1Cache "w1") ∧
    SetSnapshot (DeleteNodeCache w1Cache "w1") "w1" acceptLayer =
      (Except.error Failure.nilDeref, acceptLayer) ∧
    (DeleteNodeCache (DeleteNodeCache w1Cache "w1") "w1") "w1" = none :=
  C2_absent_node Nat (DeleteNodeCache w1Cache "w1") "w1" "r" Cluster 7 acceptLayer rfl

/-- C3: for every prior cache state — the node absent or already present
with arbitrary resources — `NewNodeCache` installs exactly the fresh
snapshot: six collections, each with version `"1"` and an empty item map
(so any prior resources are discarded), and `GetCurrentVersion` afterwards
returns 1. -/
theorem C3_create_node (α : Type) (c : Cache α) (n : String) :
    GetNodeCache (NewNodeCache c n) n = some (freshSnapshot α) ∧
    (∀ i : Fin 6, ((freshSnapshot α).Resources i).Version = "1") ∧
    (∀ i : Fin 6, ∀ name : String, ((freshSnapshot α).Resources i).Items name = none) ∧
    GetCurrentVersion (NewNodeCache c n) n = Except.ok 1 := by
  refine ⟨?_, ?_, ?_, ?_⟩
  · simp [GetNodeCache, NewNodeCache, Cache.update]
  · intro i; rfl
  · intro i name; rfl
  · simp [GetCurrentVersion, NewNodeCache, Cache.update]
    rfl

/-- C4: for every node present in the cache, `GetResource` directly after
`SetResource` with the same (node, type, name) key returns the stored value,
and `GetResource` directly after `DeleteResource` with the same key returns
the not-found indication (nil). -/
theorem C4_set_get_delete (α : Type) (c : Cache α) (nodeID name : String)
    (rtype : Fin 6) (value : α) (snap : Snapshot α) (hn : c nodeID = some snap) :
    GetResource (SetResource c nodeID name rtype value).2 nodeID name rtype =
      Except.ok (some value) ∧
    GetResource (DeleteResource c nodeID name rtype).2 nodeID name rtype =
      Except.ok none := by
  constructor
  · simp [GetResource, SetResource, hn, Cache.update]
  · simp [GetResource, DeleteResource, hn, Cache.update]

/-- C4, witness: evaluating the claim on the node `"n8"` of `richCache`. -/
theorem C4_witness :
    GetResource (SetResource richCache "n8" "y" Route 11).2 "n8" "y" Route =
      Except.ok (some 11) ∧
    GetResource (DeleteResource richCache "n8" "y" Route).2 "n8" "y" Route =
      Except.ok none :=
  C4_set_get_delete Nat richCache "n8" "y" Route 11 richSnapshot rfl

/-- C5: for every node present in the cache whose stored version string is
not parseable as an integer, `BumpCacheVersion` returns the parse error
(the spec's `VersionCorruption`) and the whole cache — in particular the
node's snapshot, all its item maps and all its version fields — is exactly
unchanged, since the error is returned before any write. -/
theorem C5_bump_corrupted (α : Type) (c : Cache α) (n : String) (snap : Snapshot α)
    (hn : c n = some snap) (hv : atoi ((snap.Resources 0).Version) = none) :
    BumpCacheVersion c n = (Except.error Failure.parseError, c) := by
  simp [BumpCacheVersion, hn, hv]

/-- C5, witness: evaluating the claim on the node `"n5"` whose stored
version is `"not-a-number"`. -/
theorem C5_witness :
    BumpCacheVersion corruptCache "n5" = (Except.error Failure.parseError, corruptCache) :=
  C5_bump_corrupted Nat corruptCache "n5" corruptSnapshot rfl rfl

/-- C6, counterexample: the stored version `"0"` is not a valid positive
integer, yet `GetCurrentVersion` does not fail — it returns 0 — refuting
the claimed equivalence between failing and the version not being a valid
positive integer. -/
theorem C6_counterexample :
    GetCurrentVersion zeroCache "n6" = Except.ok 0 ∧ ¬ (0 : Int) > 0 :=
  ⟨rfl, by decide⟩

/-- C6 (amended): for every node present in the cache, `GetCurrentVersion`
fails with the parse error if and only if the stored version is not
parseable by `strconv.Atoi` (an optionally signed decimal integer within
the 64-bit `int` range — positivity is not checked); whenever the stored
version parses to `v`, it returns `v`, even for zero or negative `v`. -/
theorem C6_current_version (α : Type) (c : Cache α) (n : String) (snap : Snapshot α)
    (hn : c n = some snap) :
    (GetCurrentVersion c n = Except.error Failure.parseError ↔
      atoi ((snap.Resources 0).Version) = none) ∧
    (∀ v : Int, atoi ((snap.Resources 0).Version) = some v →
      GetCurrentVersion c n = Except.ok v) := by
  constructor
  · cases hv : atoi ((snap.Resources 0).Version) <;> simp [GetCurrentVersion, hn, hv]
  · intro v hv
    simp [GetCurrentVersion, hn, hv]

/-- C6, witness: evaluating the amended claim on the node `"n6"` whose
stored version is `"0"`. -/
theorem C6_witness :
    (GetCurrentVersion zeroCache "n6" = Except.error Failure.parseError ↔
      atoi ((zeroSnapshot.Resources 0).Version) = none) ∧
    (∀ v : Int, atoi ((zeroSnapshot.Resources 0).Version) = some v →
      GetCurrentVersion zeroCache "n6" = Except.ok v) :=
  C6_current_version Nat zeroCache "n6" zeroSnapshot rfl

/-- C7, counterexample: publishing the present node `"w1"` to a
distribution layer that rejects the snapshot reports the rejection inside
the layer, yet the repository's `SetSnapshot` returns plain success — the
failure is swallowed, not returned to the caller. -/
theorem C7_counterexample :
    (rejectLayer.setSnapshot "w1" (freshSnapshot Nat)).2 = some PublishError.rejected ∧
    (SetSnapshot w1Cache "w1" rejectLayer).1 = Except.ok () :=
  ⟨rfl, rfl⟩

/-- C7 (amended): for every node present in the cache, `SetSnapshot` hands
exactly the node's current snapshot — the object `GetNodeCache` returns —
to the distribution layer keyed by the node id (on acceptance the layer
then serves that snapshot for the node), but the layer's error return is
discarded: the call reports success even when the layer rejects. -/
theorem C7_publish (α : Type) (c : Cache α) (n : String) (snap : Snapshot α)
    (sc : SnapshotCache α) (hn : c n = some snap) :
    GetNodeCache c n = some snap ∧
    SetSnapshot c n sc = (Except.ok (), (sc.setSnapshot n snap).1) ∧
    (sc.accept n snap = true → (SetSnapshot c n sc).2.store n = some snap) ∧
    (sc.accept n snap = false →
      (SetSnapshot c n sc).2 = sc ∧ (SetSnapshot c n sc).1 = Except.ok ()) := by
  refine ⟨hn, ?_, ?_, ?_⟩
  · simp [SetSnapshot, hn]
  · intro ha
    simp [SetSnapshot, hn, SnapshotCache.setSnapshot, ha]
  · intro ha
    constructor <;> simp [SetSnapshot, hn, SnapshotCache.setSnapshot, ha]

/-- C7, witness: evaluating the amended claim on the node `"n8"` of
`richCache` against the always-accepting distribution layer. -/
theorem C7_witness :
    GetNodeCache richCache "n8" = some richSnapshot ∧
    SetSnapshot richCache "n8" acceptLayer =
      (Except.ok (), (acceptLayer.setSnapshot "n8" richSnapshot).1) ∧
    (acceptLayer.accept "n8" richSnapshot = true →
      (SetSnapshot richCache "n8" acceptLayer).2.store "n8" = some richSnapshot) ∧
    (acceptLayer.accept "n8" richSnapshot = false →
      (SetSnapshot richCache "n8" acceptLayer).2 = acceptLayer ∧
      (SetSnapshot richCache "n8" acceptLayer).1 = Except.ok ()) :=
  C7_publish Nat richCache "n8" richSnapshot acceptLayer rfl

/-- C8: for every node present in the cache and every resource type,
`ClearResources` succeeds and empties exactly the addressed collection's
item map; the other five collections are exactly unchanged, and the
addressed collection's version field is also unchanged. -/
theorem C8_clear_exact (α : Type) (c : Cache α) (n : String) (rtype : Fin 6)
    (snap : Snapshot α) (hn : c n = some snap) :
    (ClearResources c n rtype).1 = Except.ok () ∧
    (∀ i : Fin 6, i ≠ rtype →
      ((ClearResources c n rtype).2 n).map (fun s => s.Resources i) =
        some (snap.Resources i)) ∧
    ((ClearResources c n rtype).2 n).map (fun s => (s.Resources rtype).Version) =
      some ((snap.Resources rtype).Version) ∧
    (∀ name : String,
      ((ClearResources c n rtype).2 n).map (fun s => (s.Resources rtype).Items name) =
        some none) := by
  refine ⟨?_, ?_, ?_, ?_⟩
  · simp [ClearResources, hn]
  · intro i hi
    simp [ClearResources, hn, Cache.update, hi]
  · simp [ClearResources, hn, Cache.update]
  · intro name
    simp [ClearResources, hn, Cache.update]

/-- C8, witness: evaluating the claim on the node `"n8"` of `richCache`,
clearing the Secret collection. -/
theorem C8_witness :
    (ClearResources richCache "n8" Secret).1 = Except.ok () ∧
    (∀ i : Fin 6, i ≠ Secret →
      ((ClearResources richCache "n8" Secret).2 "n8").map (fun s => s.Resources i) =
        some (richSnapshot.Resources i)) ∧
    ((ClearResources richCache "n8" Secret).2 "n8").map
        (fun s => (s.Resources Secret).Version) =
      some ((richSnapshot.Resources Secret).Version) ∧
    (∀ name : String,
      ((ClearResources richCache "n8" Secret).2 "n8").map
          (fun s => (s.Resources Secret).Items name) =
        some none) :=
  C8_clear_exact Nat richCache "n8" Secret richSnapshot rfl

/-- C9: every cache operation addressed to one node id leaves the cache
entry of every other node id unchanged, over all cache states — shown for
each operation that produces a cache (`NewNodeCache`, `DeleteNodeCache`,
`SetResource`, `DeleteResource`, `ClearResources`, `BumpCacheVersion`),
with no hypothesis on whether the addressed node is present, so the
error/panic paths are covered too; `GetNodeCache`, `GetResource`,
`GetCurrentVersion` and `SetSnapshot` take the cache by value and return
none, so they cannot change any entry. -/
theorem C9_node_isolation (α : Type) (c : Cache α) (n m name : String)
    (rtype : Fin 6) (value : α) (h : n ≠ m) :
    (NewNodeCache c n) m = c m ∧
    (DeleteNodeCache c n) m = c m ∧
    (SetResource c n name rtype value).2 m = c m ∧
    (DeleteResource c n name rtype).2 m = c m ∧
    (ClearResources c n rtype).2 m = c m ∧
    (BumpCacheVersion c n).2 m = c m := by
  have hm : m ≠ n := fun e => h e.symm
  refine ⟨?_, ?_, ?_, ?_, ?_, ?_⟩
  · simp [NewNodeCache, Cache.update, hm]
  · simp [DeleteNodeCache, hm]
  · cases hc : c n <;> simp [SetResource, hc, Cache.update, hm]
  · cases hc : c n <;> simp [DeleteResource, hc, Cache.update, hm]
  · cases hc : c n <;> simp [ClearResources, hc, Cache.update, hm]
  · cases hc : c n with
    | none => simp [BumpCacheVersion, hc]
    | some snap =>
        cases hv : atoi ((snap.Resources 0).Version) <;>
          simp [BumpCacheVersion, hc, hv, Cache.update, hm]

/-- C9, witness: evaluating the claim on the two-node cache `abCache`,
operating on `"a"` and observing `"b"`. -/
theorem C9_witness :
    (NewNodeCache abCache "a") "b" = abCache "b" ∧
    (DeleteNodeCache abCache "a") "b" = abCache "b" ∧
    (SetResource abCache "a" "r" Listener 7).2 "b" = abCache "b" ∧
    (DeleteResource abCache "a" "r" Listener).2 "b" = abCache "b" ∧
    (ClearResources abCache "a" Listener).2 "b" = abCache "b" ∧
    (BumpCacheVersion abCache "a").2 "b" = abCache "b" :=
  C9_node_isolation Nat abCache "a" "b" "r" Listener 7 (by decide)

/-- C10, counterexample: on a snapshot whose collections disagree —
index 0 (Endpoint) holds the largest stringified 64-bit `int`, the other
five hold `"5"` — `GetCurrentVersion` does report index 0's version, but
`BumpCacheVersion` does not resynchronize the collections to the Endpoint
collection's version plus 1: the increment wraps, returning -2^63 instead
of 2^63 - 1 + 1. -/
theorem C10_counterexample :
    GetCurrentVersion skewCache "nA" = Except.ok 9223372036854775807 ∧
    (BumpCacheVersion skewCache "nA").1 = Except.ok (-9223372036854775808 : Int) ∧
    (-9223372036854775808 : Int) ≠ 9223372036854775807 + 1 :=
  ⟨rfl, rfl, by decide⟩

/-- C10 (amended): the authoritative version is read exclusively from the
collection at index 0, which is `Endpoint`: for every node present in the
cache whose index-0 version parses to `v`, `GetCurrentVersion` returns `v`
without detecting any disagreement — replacing the snapshot by any snapshot
`snap₂` with the same index-0 version, and arbitrary other five versions,
yields the same answer — and `BumpCacheVersion` resynchronizes all six
collections to the stringified wrapped `v + 1` (equal to `v + 1` whenever
`v < 2^63 - 1`) regardless of the other five versions. -/
theorem C10_version_authority (α : Type) (c : Cache α) (n : String)
    (snap snap₂ : Snapshot α) (v : Int) (hn : c n = some snap)
    (hv : atoi ((snap.Resources 0).Version) = some v)
    (h0 : (snap₂.Resources 0).Version = (snap.Resources 0).Version) :
    Endpoint = (0 : Fin 6) ∧
    GetCurrentVersion c n = Except.ok v ∧
    GetCurrentVersion (c.update n snap₂) n = Except.ok v ∧
    BumpCacheVersion c n =
      (Except.ok (int64Wrap (v + 1)),
        c.update n
          { Resources := fun i =>
              { snap.Resources i with Version := itoa (int64Wrap (v + 1)) } }) ∧
    (v < goIntMax → int64Wrap (v + 1) = v + 1) := by
  refine ⟨rfl, ?_, ?_, ?_, ?_⟩
  · simp [GetCurrentVersion, hn, hv]
  · simp [GetCurrentVersion, Cache.update, h0, hv]
  · simp [BumpCacheVersion, hn, hv]
  · intro hlt
    have hr := atoi_range _ _ hv
    apply int64Wrap_eq_self
    · unfold goIntMin at hr ⊢; omega
    · unfold goIntMax at hlt hr ⊢; omega

/-- C10, witness: evaluating the amended claim on the disagreeing snapshot
`skewSnapshot` under `"nA"`, with `maxSnapshot` as the index-0-agreeing
replacement. -/
theorem C10_witness :
    Endpoint = (0 : Fin 6) ∧
    GetCurrentVersion skewCache "nA" = Except.ok 9223372036854775807 ∧
    GetCurrentVersion (skewCache.update "nA" maxSnapshot) "nA" =
      Except.ok 9223372036854775807 ∧
    BumpCacheVersion skewCache "nA" =
      (Except.ok (int64Wrap (9223372036854775807 + 1)),
        skewCache.update "nA"
          { Resources := fun i =>
              { skewSnapshot.Resources i with
                  Version := itoa (int64Wrap (9223372036854775807 + 1)) } }) ∧
    ((9223372036854775807 : Int) < goIntMax →
      int64Wrap (9223372036854775807 + 1) = 9223372036854775807 + 1) :=
  C10_version_authority Nat skewCache "nA" skewSnapshot maxSnapshot
    9223372036854775807 rfl rfl rfl

end Marin3r
